import Mathlib

/-!
Verification of the mining/reward engine of the `cyber` repository.

The TypeScript sources are shallowly embedded:
* JS `number` values carrying fractional data (multipliers, random draws,
  balances of $DATA) become `ℚ`; timestamps (milliseconds) become `ℤ`;
  counters become `ℕ`; wei amounts become `ℤ`.
* `Math.random()` draws are made explicit parameters.
* The asynchronous claim flow becomes a deterministic function of the
  pre-state and an environment recording every chain-RPC response; the
  function also returns the trace of RPC calls it performed.
-/

namespace Cyber

/-! ## Rarity system (src/lib/rarity.ts) -/

inductive RarityTier where
  | common
  | uncommon
  | rare
  | epic
  | legendary
  | mythic
deriving DecidableEq, Repr

/-- Field `dropRate` of `RARITY_CONFIGS` (percent). -/
def dropRate : RarityTier → ℚ
  | .common => 50
  | .uncommon => 30
  | .rare => 15
  | .epic => 4
  | .legendary => 9/10
  | .mythic => 1/10

/-- Field `multiplier` of `RARITY_CONFIGS`. -/
def rarityMultiplier : RarityTier → ℚ
  | .common => 1
  | .uncommon => 3/2
  | .rare => 2
  | .epic => 3
  | .legendary => 5
  | .mythic => 10

/-- The fixed iteration order of the tiers inside `calculateRarity`. -/
def rarityOrder : List RarityTier :=
  [.common, .uncommon, .rare, .epic, .legendary, .mythic]

/-- The `for` loop of `calculateRarity`: accumulate the cumulative drop rate
and return the first tier with `random <= cumulative`; `none` when the loop
falls through. -/
def rarityScan : List RarityTier → ℚ → ℚ → Option RarityTier
  | [], _, _ => none
  | t :: rest, cumulative, random =>
    let c := cumulative + dropRate t
    if random ≤ c then some t else rarityScan rest c random

/-- `calculateRarity`, with the uniform draw `Math.random() * 100` passed in
as `random`.  The `.getD .common` is the trailing `return 'common'` fallback. -/
def calculateRarity (random : ℚ) : RarityTier :=
  (rarityScan rarityOrder 0 random).getD .common

/-- `calculateReward`: `Math.floor(baseReward * multiplier)`. -/
def calculateReward (baseReward : ℚ) (rarity : RarityTier) : ℤ :=
  ⌊baseReward * rarityMultiplier rarity⌋

/-- Spec-side cumulative bound of each tier (common 50, uncommon 80, rare 95,
epic 99, legendary 99.9, mythic 100), written from the spec's percentages. -/
def specCumBound : RarityTier → ℚ
  | .common => 50
  | .uncommon => 80
  | .rare => 95
  | .epic => 99
  | .legendary => 999/10
  | .mythic => 100

/-- Spec-side `rollRarity`: scanning the six tiers in the fixed order, return
the first tier whose cumulative bound is ≥ the draw (lowest tier as fallback). -/
def rollRaritySpec (draw : ℚ) : RarityTier :=
  if draw ≤ specCumBound .common then .common
  else if draw ≤ specCumBound .uncommon then .uncommon
  else if draw ≤ specCumBound .rare then .rare
  else if draw ≤ specCumBound .epic then .epic
  else if draw ≤ specCumBound .legendary then .legendary
  else if draw ≤ specCumBound .mythic then .mythic
  else .common

/-! ## Combo system (src/lib/combo.ts) -/

structure ComboState where
  level : ℕ
  streak : ℕ
  multiplier : ℚ
  lastClaimTime : ℤ
  expiresAt : ℤ
deriving DecidableEq, Repr

/-- `COMBO_TIMEOUT = 2 * 60 * 1000` milliseconds. -/
def COMBO_TIMEOUT : ℤ := 2 * 60 * 1000

/-- The `COMBO_MULTIPLIERS` record: a partial lookup from level. -/
def COMBO_MULTIPLIERS : ℕ → Option ℚ
  | 0 => some 1
  | 1 => some (3/2)
  | 2 => some 2
  | 3 => some 3
  | 4 => some 5
  | _ => none

/-- `calculateComboLevel`. -/
def calculateComboLevel (streak : ℕ) : ℕ :=
  if streak < 2 then 0
  else if streak = 2 then 1
  else if streak = 3 then 2
  else if streak = 4 then 3
  else 4

/-- `getComboMultiplier`: `COMBO_MULTIPLIERS[level] || 1.0`. -/
def getComboMultiplier (level : ℕ) : ℚ :=
  (COMBO_MULTIPLIERS level).getD 1

/-- `isComboActive`: `Date.now() < comboState.expiresAt`, with the clock
passed in as `now`. -/
def isComboActive (s : ComboState) (now : ℤ) : Bool :=
  decide (now < s.expiresAt)

/-- `initComboState`. -/
def initComboState : ComboState :=
  { level := 0, streak := 0, multiplier := 1, lastClaimTime := 0, expiresAt := 0 }

/-- `updateCombo`, with `Date.now()` passed in as `now`. -/
def updateCombo (s : ComboState) (now : ℤ) : ComboState :=
  if isComboActive s now && decide (0 < s.streak) then
    let newStreak := s.streak + 1
    let newLevel := calculateComboLevel newStreak
    { level := newLevel
      streak := newStreak
      multiplier := getComboMultiplier newLevel
      lastClaimTime := now
      expiresAt := now + COMBO_TIMEOUT }
  else
    { level := 0
      streak := 1
      multiplier := 1
      lastClaimTime := now
      expiresAt := now + COMBO_TIMEOUT }

/-! ## Overload events (src/lib/overload.ts) -/

inductive OverloadType where
  | surge
  | crash
  | chaos
deriving DecidableEq, Repr

structure OverloadEvent where
  type : OverloadType
  name : String
  description : String
  multiplier : ℚ
  failureChance : ℚ
  active : Bool
  triggeredAt : ℤ
deriving DecidableEq, Repr

/-- `OVERLOAD_CHANCE = 0.08`. -/
def OVERLOAD_CHANCE : ℚ := 8/100

/-- The inactive/active-less part of an `OVERLOAD_TEMPLATES` entry. -/
structure OverloadTemplate where
  type : OverloadType
  name : String
  description : String
  multiplier : ℚ
  failureChance : ℚ
deriving DecidableEq, Repr

def OVERLOAD_TEMPLATES : List OverloadTemplate :=
  [ { type := .surge, name := "POWER SURGE"
      description := "System overload detected! High risk, high reward!"
      multiplier := 5/2, failureChance := 2/10 }
  , { type := .crash, name := "SYSTEM CRASH"
      description := "Critical error! Mining unstable!"
      multiplier := 3, failureChance := 35/100 }
  , { type := .chaos, name := "QUANTUM CHAOS"
      description := "Reality is glitching! Anything can happen!"
      multiplier := 2, failureChance := 25/100 } ]

/-- `shouldTriggerOverload`: `Math.random() < OVERLOAD_CHANCE`, with the draw
passed in as `r`. -/
def shouldTriggerOverload (r : ℚ) : Bool :=
  decide (r < OVERLOAD_CHANCE)

/-- `generateOverloadEvent`: index `Math.floor(r * 3)` into the template list
(`r` the uniform draw in `[0,1)`), then spread with `active := true` and
`triggeredAt := now`. -/
def generateOverloadEvent (r : ℚ) (now : ℤ) : OverloadEvent :=
  let t := OVERLOAD_TEMPLATES.getD (⌊r * (OVERLOAD_TEMPLATES.length : ℚ)⌋).toNat
    { type := .surge, name := "", description := "", multiplier := 1, failureChance := 0 }
  { type := t.type, name := t.name, description := t.description
    multiplier := t.multiplier, failureChance := t.failureChance
    active := true, triggeredAt := now }

/-- `calculateOverloadResult`: `success = roll > failureChance`;
multiplier is the event's on success and `0` on failure. -/
def calculateOverloadResult (event : OverloadEvent) (roll : ℚ) : Bool × ℚ :=
  let success := decide (event.failureChance < roll)
  (success, if success then event.multiplier else 0)

/-! ## Daily challenges (src/lib/minting.ts, challenge section) -/

inductive ChallengeType where
  | mine_count
  | data_earned
  | rare_drops
  | combo_level
  | speed_mining
deriving DecidableEq, Repr

structure ChallengeTemplate where
  type : ChallengeType
  name : String
  description : String
  target : ℕ
  reward : ℕ
deriving DecidableEq, Repr

/-- `CHALLENGE_DURATION = 24 * 60 * 60 * 1000` milliseconds. -/
def CHALLENGE_DURATION : ℤ := 24 * 60 * 60 * 1000

def CHALLENGE_TEMPLATES : List ChallengeTemplate :=
  [ { type := .mine_count, name := "Data Miner"
      description := "Complete 5 mining operations", target := 5, reward := 50 }
  , { type := .mine_count, name := "Power User"
      description := "Complete 10 mining operations", target := 10, reward := 120 }
  , { type := .data_earned, name := "Data Collector"
      description := "Earn 100 $DATA today", target := 100, reward := 75 }
  , { type := .data_earned, name := "Data Tycoon"
      description := "Earn 250 $DATA today", target := 250, reward := 200 }
  , { type := .rare_drops, name := "Lucky Strike"
      description := "Get 2 Rare+ drops", target := 2, reward := 100 }
  , { type := .rare_drops, name := "Fortune Hunter"
      description := "Get 5 Rare+ drops", target := 5, reward := 300 }
  , { type := .combo_level, name := "Combo Master"
      description := "Reach combo level 2 (Triple Threat)", target := 2, reward := 80 }
  , { type := .combo_level, name := "Chain Legend"
      description := "Reach combo level 4 (Ultimate Chain)", target := 4, reward := 250 }
  , { type := .speed_mining, name := "Speed Demon"
      description := "Complete 3 mines in 10 minutes", target := 3, reward := 150 } ]

structure Challenge where
  id : String
  type : ChallengeType
  name : String
  description : String
  target : ℕ
  progress : ℕ
  reward : ℕ
  completed : Bool
  createdAt : ℤ
  expiresAt : ℤ
deriving DecidableEq, Repr

structure DailyChallengeState where
  challenges : List Challenge
  lastRefresh : ℤ
  completedToday : ℕ

/-- The `selected.map((template, index) => ...)` body of
`generateDailyChallenges`, with the running index made explicit. -/
def mkChallenges (now : ℤ) : ℕ → List ChallengeTemplate → List Challenge
  | _, [] => []
  | i, t :: ts =>
    { id := "challenge_" ++ toString now ++ "_" ++ toString i
      type := t.type, name := t.name, description := t.description
      target := t.target, progress := 0, reward := t.reward
      completed := false, createdAt := now, expiresAt := now + CHALLENGE_DURATION }
    :: mkChallenges now (i + 1) ts

/-- `generateDailyChallenges`, with the random shuffle of
`CHALLENGE_TEMPLATES` passed in as `shuffled` (the JS
`sort(() => Math.random() - 0.5)` produces some permutation of the pool). -/
def generateDailyChallenges (shuffled : List ChallengeTemplate) (now : ℤ) : List Challenge :=
  mkChallenges now 0 (shuffled.take 3)

/-- `needsRefresh`: `Date.now() - state.lastRefresh >= CHALLENGE_DURATION`. -/
def needsRefresh (state : DailyChallengeState) (now : ℤ) : Bool :=
  decide (CHALLENGE_DURATION ≤ now - state.lastRefresh)

/-- `initChallengeState`. -/
def initChallengeState (shuffled : List ChallengeTemplate) (now : ℤ) : DailyChallengeState :=
  { challenges := generateDailyChallenges shuffled now
    lastRefresh := now
    completedToday := 0 }

/-- `loadChallengeState`, with the stored value (parsed record or absent)
passed in as `stored`. -/
def loadChallengeState (stored : Option DailyChallengeState)
    (shuffled : List ChallengeTemplate) (now : ℤ) : DailyChallengeState :=
  match stored with
  | none => initChallengeState shuffled now
  | some state =>
    if needsRefresh state now then initChallengeState shuffled now else state

/-! ## Mining session and claim flow (src/lib/combo.ts, `useMining` hook) -/

/-- The in-memory `stats` state of the hook. -/
structure MiningStats where
  minecart : ℚ
  multiplier : ℚ
  seasonPoints : ℚ
  hashRate : ℚ
deriving DecidableEq, Repr

/-- The record written by `saveStatsToStorage`. -/
structure StoredStats where
  minecart : ℚ
  seasonPoints : ℚ
  multiplier : ℚ
  lastUpdated : ℤ
deriving DecidableEq, Repr

/-- The record written by `savePendingReward`. -/
structure PendingRewardRecord where
  amount : ℚ
  timestamp : ℤ
deriving DecidableEq, Repr

/-- The hook state plus the two durable records of the identity. -/
structure MiningModelState where
  isMining : Bool
  isReadyToClaim : Bool
  isClaiming : Bool
  pendingReward : ℚ
  pendingRarity : Option RarityTier
  miningProgress : ℚ
  stats : MiningStats
  storedStats : Option StoredStats
  storedPending : Option PendingRewardRecord
deriving Repr

/-- An `eth_getTransactionReceipt` result. -/
structure TxReceipt where
  status : String
deriving DecidableEq, Repr

/-- One chain-RPC/provider call performed by `claimReward`. -/
inductive ChainCall where
  | getChainIdCall
  | switchChainCall
  | requestAccountsCall
  | getBalanceCall
  | estimateGasCall
  | gasPriceCall
  | sendTransactionCall
  | getReceiptCall
deriving DecidableEq, Repr

/-- The environment of one claim attempt: the response of each awaited
provider operation.  `Except.error` records a thrown rejection, caught by
the `catch` of `claimReward`; `receiptAt i` is the receipt returned by the
`i`-th confirmation poll (`none`: not yet available, or the poll threw). -/
structure ChainEnv where
  chainId : String
  switchSucceeds : Bool
  hasEthereum : Bool
  accountsResult : Except String String
  balanceResult : Except String ℤ
  gasEstimateResult : Except String String
  gasPriceResult : Except String String
  sendResult : Except String String
  receiptAt : ℕ → Option TxReceipt

inductive ClaimOutcome where
  | noop
  | switchedNetwork
  | failed (message : String)
  | settled (reward : ℚ)
deriving DecidableEq, Repr

/-- `CLAIM_FEE_WEI = '0x2386F26FC10000'` (0.01 APE). -/
def CLAIM_FEE_WEI : ℤ := 10000000000000000

/-- The gas buffer `BigInt('100000000000000')` added to the required balance. -/
def GAS_BUFFER_WEI : ℤ := 100000000000000

/-- `APECHAIN_CONFIG.chainId`. -/
def APECHAIN_CHAIN_ID : String := "0x8173"

/-- Per-character embedding of `toLowerCase()` over the string's characters. -/
def toLowerStr (s : String) : String :=
  String.mk (s.data.map Char.toLower)

/-- Embedding of `trim()`: strip whitespace from both ends. -/
def trimStr (s : String) : String :=
  String.mk (((s.data.dropWhile Char.isWhitespace).reverse.dropWhile
    Char.isWhitespace).reverse)

/-- The normalization applied to both chain ids: `toLowerCase().trim()`. -/
def normalizeChainId (s : String) : String :=
  trimStr (toLowerStr s)

/-- The `while (!receipt && attempts < maxAttempts)` confirmation loop:
given the poll oracle, the current attempt index and the remaining budget,
return the receipt found (if any) and the number of polls performed. -/
def pollReceipt (receiptAt : ℕ → Option TxReceipt) : ℕ → ℕ → Option TxReceipt × ℕ
  | _, 0 => (none, 0)
  | attempt, fuel + 1 =>
    match receiptAt attempt with
    | some r => (some r, 1)
    | none =>
      let rest := pollReceipt receiptAt (attempt + 1) fuel
      (rest.1, rest.2 + 1)

/-- `maxAttempts = 60`. -/
def MAX_POLL_ATTEMPTS : ℕ := 60

/-- `claimReward`, as a function of the pre-state, the chain environment of
this attempt and the clock; returns the post-state, the outcome, and the
trace of provider calls.  The `finally { setIsClaiming(false) }` is reflected
by `isClaiming := false` on every non-noop exit path. -/
def claimReward (s : MiningModelState) (env : ChainEnv) (now : ℤ) :
    MiningModelState × ClaimOutcome × List ChainCall :=
  if !s.isReadyToClaim || s.isClaiming then (s, .noop, [])
  else
    let s1 := { s with isClaiming := true }
    if normalizeChainId env.chainId ≠ normalizeChainId APECHAIN_CHAIN_ID then
      if env.switchSucceeds then
        ({ s1 with isClaiming := false }, .switchedNetwork,
          [.getChainIdCall, .switchChainCall])
      else
        ({ s1 with isClaiming := false },
          .failed "Please manually switch to ApeChain mainnet in MetaMask",
          [.getChainIdCall, .switchChainCall])
    else if !env.hasEthereum then
      ({ s1 with isClaiming := false }, .failed "MetaMask not found",
        [.getChainIdCall])
    else
      match env.accountsResult with
      | .error m =>
        ({ s1 with isClaiming := false }, .failed m,
          [.getChainIdCall, .requestAccountsCall])
      | .ok _fromAddress =>
        match env.balanceResult with
        | .error m =>
          ({ s1 with isClaiming := false }, .failed m,
            [.getChainIdCall, .requestAccountsCall, .getBalanceCall])
        | .ok balanceWei =>
          if balanceWei < CLAIM_FEE_WEI + GAS_BUFFER_WEI then
            ({ s1 with isClaiming := false },
              .failed "Insufficient balance. Need at least 0.0101 APE",
              [.getChainIdCall, .requestAccountsCall, .getBalanceCall])
          else
            match env.gasEstimateResult with
            | .error m =>
              ({ s1 with isClaiming := false }, .failed m,
                [.getChainIdCall, .requestAccountsCall, .getBalanceCall,
                 .estimateGasCall])
            | .ok _gasEstimate =>
              match env.gasPriceResult with
              | .error m =>
                ({ s1 with isClaiming := false }, .failed m,
                  [.getChainIdCall, .requestAccountsCall, .getBalanceCall,
                   .estimateGasCall, .gasPriceCall])
              | .ok _gasPrice =>
                match env.sendResult with
                | .error m =>
                  ({ s1 with isClaiming := false }, .failed m,
                    [.getChainIdCall, .requestAccountsCall, .getBalanceCall,
                     .estimateGasCall, .gasPriceCall, .sendTransactionCall])
                | .ok _txHash =>
                  let polled := pollReceipt env.receiptAt 0 MAX_POLL_ATTEMPTS
                  let baseCalls : List ChainCall :=
                    [.getChainIdCall, .requestAccountsCall, .getBalanceCall,
                     .estimateGasCall, .gasPriceCall, .sendTransactionCall]
                    ++ List.replicate polled.2 .getReceiptCall
                  match polled.1 with
                  | none =>
                    ({ s1 with isClaiming := false },
                      .failed "Transaction timeout - check your wallet for status",
                      baseCalls)
                  | some receipt =>
                    if receipt.status = "0x0" then
                      ({ s1 with isClaiming := false },
                        .failed "Transaction failed - reverted", baseCalls)
                    else
                      let newMinecart : ℚ := s1.stats.minecart + s1.pendingReward
                      let newSeason : ℚ := s1.stats.seasonPoints + s1.pendingReward * 10
                      let newMult : ℚ := min (s1.stats.multiplier + 1/10) 3
                      ({ s1 with
                          stats := { s1.stats with
                            minecart := newMinecart
                            seasonPoints := newSeason
                            multiplier := newMult }
                          storedStats := some
                            { minecart := newMinecart, seasonPoints := newSeason
                              multiplier := newMult, lastUpdated := now }
                          storedPending := none
                          isReadyToClaim := false
                          pendingReward := 0
                          pendingRarity := none
                          miningProgress := 0
                          isClaiming := false },
                        .settled s1.pendingReward, baseCalls)

/-! ## `startMining` (src/lib/combo.ts, `useMining` hook) -/

/-- An `NFTCartridge` as far as `startMining` consumes it. -/
structure Cartridge where
  name : String
  tokenId : ℕ
deriving DecidableEq, Repr

inductive StartOutcome where
  /-- `toast.error('Please connect your wallet first')` then `return`. -/
  | errorNoWallet
  /-- `toast.error(...)` and an error log entry, then `return`. -/
  | errorNoCartridge
  /-- The bare `if (isMining) return;`: no toast, no log. -/
  | silentIgnore
  /-- Mining actually starts with the drawn duration, rarity and reward. -/
  | started (duration : ℕ) (rarity : RarityTier) (finalReward : ℤ)
deriving DecidableEq, Repr

/-- `startMining`, with the hook state flags and the three random draws made
explicit: `durationRand`, `bonusRand` are uniform draws in `[0,1)` and
`rarityDraw` is the `Math.random() * 100` value consumed by
`calculateRarity`.  `isReadyToClaim` is part of the session status but is
never consulted by the source's branching. -/
def startMining (isConnected : Bool) (loadedCartridge : Option Cartridge)
    (isMining _isReadyToClaim : Bool)
    (durationRand rarityDraw bonusRand : ℚ) : StartOutcome :=
  if !isConnected then .errorNoWallet
  else if loadedCartridge = none then .errorNoCartridge
  else if isMining then .silentIgnore
  else
    let duration := (⌊durationRand * (60 - 5 + 1 : ℚ)⌋).toNat + 5
    let rarity := calculateRarity rarityDraw
    let baseReward := (duration / 5 : ℕ) + (⌊bonusRand * 3⌋).toNat + 1
    .started duration rarity (calculateReward (baseReward : ℚ) rarity)

/-- Whether a `StartOutcome` carries an explicit, user-visible error
(toast and/or error log entry). -/
def isExplicitError : StartOutcome → Bool
  | .errorNoWallet => true
  | .errorNoCartridge => true
  | .silentIgnore => false
  | .started _ _ _ => false

/-! ## Concrete fixtures used by witness theorems -/

def sampleReadyState : MiningModelState :=
  { isMining := false, isReadyToClaim := true, isClaiming := false
    pendingReward := 30, pendingRarity := some .epic, miningProgress := 100
    stats := { minecart := 5, multiplier := 1, seasonPoints := 50, hashRate := 0 }
    storedStats := none
    storedPending := some { amount := 30, timestamp := 0 } }

def sampleEnvOk : ChainEnv :=
  { chainId := "0x8173", switchSucceeds := true, hasEthereum := true
    accountsResult := .ok "0xabc"
    balanceResult := .ok 100000000000000000
    gasEstimateResult := .ok "0x5208"
    gasPriceResult := .ok "0x1"
    sendResult := .ok "0xhash"
    receiptAt := fun _ => some { status := "0x1" } }

def sampleEnvTimeout : ChainEnv :=
  { sampleEnvOk with receiptAt := fun _ => none }

def sampleEnvWrongChain : ChainEnv :=
  { sampleEnvOk with chainId := "0x1" }

/-! ## Theorems -/

/-- C6: `computeReward` is a pure, deterministic function: for every
non-negative base and every one of the six rarity tiers,
`computeReward(base, tier) = floor(base * multiplier(tier))`, including
`base = 0`; in particular `computeReward(10, 'epic') = 30` with the epic
multiplier `3.0`. -/
theorem C6_calculateReward_floor (base : ℚ) (h : 0 ≤ base) (t : RarityTier) :
    calculateReward base t = ⌊base * rarityMultiplier t⌋ ∧
    calculateReward 0 t = 0 ∧
    rarityMultiplier .epic = 3 ∧
    calculateReward 10 .epic = 30 := by
  refine ⟨rfl, ?_, rfl, ?_⟩
  · simp [calculateReward]
  · norm_num [calculateReward, rarityMultiplier]

theorem C6_calculateReward_floor_witness :
    (0:ℚ) ≤ 10 ∧ calculateReward 10 .epic = 30 :=
  ⟨by norm_num, (C6_calculateReward_floor 10 (by norm_num) .epic).2.2.2⟩

/-- C7: for every draw in `[0,100)`, the scan over the six tiers in fixed
order returns the first tier whose cumulative bound is ≥ the draw; the
configured percentages sum to exactly 100, so the trailing fallback
(`rarityScan` returning `none`) is unreachable on `[0,100)`. -/
theorem C7_rollRarity_scan (draw : ℚ) (h0 : 0 ≤ draw) (h1 : draw < 100) :
    (rarityOrder.map dropRate).sum = 100 ∧
    rarityScan rarityOrder 0 draw = some (rollRaritySpec draw) ∧
    calculateRarity draw = rollRaritySpec draw := by
  have hsum : (rarityOrder.map dropRate).sum = 100 := by
    norm_num [rarityOrder, dropRate]
  have hscan : rarityScan rarityOrder 0 draw = some (rollRaritySpec draw) := by
    simp only [rarityOrder, rarityScan, dropRate, rollRaritySpec, specCumBound]
    norm_num
    split_ifs <;> first | rfl | linarith
  exact ⟨hsum, hscan, by rw [calculateRarity, hscan]; rfl⟩

theorem C7_rollRarity_scan_witness :
    rarityScan rarityOrder 0 (97:ℚ) = some (rollRaritySpec 97) :=
  (C7_rollRarity_scan 97 (by norm_num) (by norm_num)).2.1

/-- C5: `updateCombo(state, now)` continues the combo (streak + 1, level and
multiplier recomputed, `expiresAt = now + 120s`) exactly when
`state.streak > 0` and `now < state.expiresAt`, and otherwise restarts at
streak 1, level 0, multiplier 1.0; in particular, for any state satisfying
the `expiresAt ≤ lastClaimTime + 120s` shape invariant (which every state
produced by `initComboState`/`updateCombo` satisfies), `now − lastClaimTime
> 120s` forces the restart regardless of prior streak.  The level
thresholds are streak<2→0, =2→1, =3→2, =4→3, ≥5→4 with multipliers
1.0/1.5/2.0/3.0/5.0. -/
theorem C5_updateCombo_spec (s : ComboState) (now : ℤ) :
    COMBO_TIMEOUT = 120000 ∧
    (0 < s.streak → now < s.expiresAt →
      updateCombo s now =
        { level := calculateComboLevel (s.streak + 1)
          streak := s.streak + 1
          multiplier := getComboMultiplier (calculateComboLevel (s.streak + 1))
          lastClaimTime := now
          expiresAt := now + COMBO_TIMEOUT }) ∧
    (¬ (0 < s.streak ∧ now < s.expiresAt) →
      updateCombo s now =
        { level := 0, streak := 1, multiplier := 1
          lastClaimTime := now, expiresAt := now + COMBO_TIMEOUT }) ∧
    (s.expiresAt ≤ s.lastClaimTime + COMBO_TIMEOUT →
      COMBO_TIMEOUT < now - s.lastClaimTime →
      (updateCombo s now).streak = 1 ∧ (updateCombo s now).level = 0 ∧
        (updateCombo s now).multiplier = 1) ∧
    (∀ k : ℕ, k < 2 → calculateComboLevel k = 0) ∧
    calculateComboLevel 2 = 1 ∧ calculateComboLevel 3 = 2 ∧
    calculateComboLevel 4 = 3 ∧ (∀ k : ℕ, 5 ≤ k → calculateComboLevel k = 4) ∧
    getComboMultiplier 0 = 1 ∧ getComboMultiplier 1 = 3/2 ∧
    getComboMultiplier 2 = 2 ∧ getComboMultiplier 3 = 3 ∧
    getComboMultiplier 4 = 5 ∧
    initComboState.expiresAt ≤ initComboState.lastClaimTime + COMBO_TIMEOUT ∧
    (∀ t : ComboState, ∀ m : ℤ,
      (updateCombo t m).expiresAt = (updateCombo t m).lastClaimTime + COMBO_TIMEOUT) := by
  refine ⟨rfl, ?_, ?_, ?_, ?_, rfl, rfl, rfl, ?_, rfl, rfl, rfl, rfl, rfl, ?_, ?_⟩
  · intro hs hnow
    simp [updateCombo, isComboActive, hs, hnow]
  · intro hns
    rcases Decidable.not_and_iff_or_not.mp hns with h | h
    · have hz : s.streak = 0 := by omega
      simp [updateCombo, isComboActive, hz]
    · simp [updateCombo, isComboActive, h]
  · intro hinv hlate
    have hexp : ¬ now < s.expiresAt := by omega
    simp [updateCombo, isComboActive, hexp]
  · intro k hk
    interval_cases k <;> rfl
  · intro k hk
    have h1 : ¬ k < 2 := by omega
    have h2 : k ≠ 2 := by omega
    have h3 : k ≠ 3 := by omega
    have h4 : k ≠ 4 := by omega
    simp [calculateComboLevel, h1, h2, h3, h4]
  · simp [initComboState, COMBO_TIMEOUT]
  · intro t m
    simp only [updateCombo]
    split <;> rfl

theorem C5_updateCombo_spec_witness :
    updateCombo { level := 2, streak := 3, multiplier := 2
                  lastClaimTime := 0, expiresAt := 120000 } 1000 =
      { level := 3, streak := 4, multiplier := 3
        lastClaimTime := 1000, expiresAt := 121000 } := by
  have h := (C5_updateCombo_spec
    { level := 2, streak := 3, multiplier := 2
      lastClaimTime := 0, expiresAt := 120000 } 1000).2.1
    (by norm_num) (by norm_num)
  simpa [calculateComboLevel, getComboMultiplier, COMBO_MULTIPLIERS, COMBO_TIMEOUT] using h

/-- C8: the overload trigger gate fires exactly on draws in `[0, 0.08)` (an
8% slice of the uniform `[0,1)` draw); on trigger, each of the exactly three
templates is selected on an equal third of the draw interval; resolution
succeeds exactly when the roll exceeds `failureChance` (a `1 − failureChance`
slice of `[0,1)`), the resulting multiplier is the event's multiplier on
success and `0` on failure — every failed resolution yields multiplier 0. -/
theorem C8_overload_spec :
    (∀ r : ℚ, 0 ≤ r → r < 1 → (shouldTriggerOverload r = true ↔ r < 8/100)) ∧
    OVERLOAD_TEMPLATES.length = 3 ∧
    (∀ r : ℚ, ∀ now : ℤ, 0 ≤ r → r < 1 →
      (r < 1/3 → generateOverloadEvent r now =
        { type := .surge, name := "POWER SURGE"
          description := "System overload detected! High risk, high reward!"
          multiplier := 5/2, failureChance := 2/10
          active := true, triggeredAt := now }) ∧
      (1/3 ≤ r → r < 2/3 → generateOverloadEvent r now =
        { type := .crash, name := "SYSTEM CRASH"
          description := "Critical error! Mining unstable!"
          multiplier := 3, failureChance := 35/100
          active := true, triggeredAt := now }) ∧
      (2/3 ≤ r → generateOverloadEvent r now =
        { type := .chaos, name := "QUANTUM CHAOS"
          description := "Reality is glitching! Anything can happen!"
          multiplier := 2, failureChance := 25/100
          active := true, triggeredAt := now })) ∧
    (∀ e : OverloadEvent, ∀ roll : ℚ,
      ((calculateOverloadResult e roll).1 = true ↔ e.failureChance < roll)) ∧
    (∀ e : OverloadEvent, ∀ roll : ℚ, e.failureChance < roll →
      calculateOverloadResult e roll = (true, e.multiplier)) ∧
    (∀ e : OverloadEvent, ∀ roll : ℚ, roll ≤ e.failureChance →
      calculateOverloadResult e roll = (false, 0)) := by
  refine ⟨?_, rfl, ?_, ?_, ?_, ?_⟩
  · intro r _ _
    simp [shouldTriggerOverload, OVERLOAD_CHANCE]
  · intro r now h0 h1
    refine ⟨?_, ?_, ?_⟩
    · intro h
      have hfl : ⌊r * 3⌋ = 0 := by
        rw [Int.floor_eq_zero_iff]
        constructor <;> [positivity; linarith]
      simp [generateOverloadEvent, OVERLOAD_TEMPLATES, hfl]
    · intro hlo hhi
      have hfl : ⌊r * 3⌋ = 1 := by
        rw [Int.floor_eq_iff]
        push_cast
        constructor <;> linarith
      simp [generateOverloadEvent, OVERLOAD_TEMPLATES, hfl]
    · intro hlo
      have hfl : ⌊r * 3⌋ = 2 := by
        rw [Int.floor_eq_iff]
        push_cast
        constructor <;> linarith
      simp [generateOverloadEvent, OVERLOAD_TEMPLATES, hfl]
  · intro e roll
    simp [calculateOverloadResult]
  · intro e roll h
    simp [calculateOverloadResult, h]
  · intro e roll h
    simp [calculateOverloadResult, not_lt.mpr h]

theorem C8_overload_spec_witness :
    calculateOverloadResult
      { type := .surge, name := "POWER SURGE"
        description := "System overload detected! High risk, high reward!"
        multiplier := 5/2, failureChance := 2/10
        active := true, triggeredAt := 0 } (1/2) = (true, 5/2) := by
  have h := C8_overload_spec.2.2.2.2.1
    { type := .surge, name := "POWER SURGE"
      description := "System overload detected! High risk, high reward!"
      multiplier := 5/2, failureChance := 2/10
      active := true, triggeredAt := 0 } (1/2) (by norm_num)
  simpa using h

lemma mkChallenges_length (now : ℤ) (i : ℕ) (l : List ChallengeTemplate) :
    (mkChallenges now i l).length = l.length := by
  induction l generalizing i with
  | nil => rfl
  | cons t ts ih => simp [mkChallenges, ih]

lemma mkChallenges_fresh (now : ℤ) (i : ℕ) (l : List ChallengeTemplate) :
    ∀ c ∈ mkChallenges now i l, c.progress = 0 ∧ c.completed = false := by
  induction l generalizing i with
  | nil => intro c hc; cases hc
  | cons t ts ih =>
    intro c hc
    rw [mkChallenges] at hc
    rcases List.mem_cons.mp hc with hc | hc
    · subst hc; exact ⟨rfl, rfl⟩
    · exact ih (i + 1) c hc

lemma mkChallenges_map_name (now : ℤ) (i : ℕ) (l : List ChallengeTemplate) :
    (mkChallenges now i l).map Challenge.name = l.map ChallengeTemplate.name := by
  induction l generalizing i with
  | nil => rfl
  | cons t ts ih => simp [mkChallenges, ih]

lemma mkChallenges_mem (now : ℤ) (i : ℕ) (l : List ChallengeTemplate) :
    ∀ c ∈ mkChallenges now i l, ∃ t ∈ l,
      c.type = t.type ∧ c.name = t.name ∧ c.description = t.description ∧
      c.target = t.target ∧ c.reward = t.reward := by
  induction l generalizing i with
  | nil => intro c hc; cases hc
  | cons t ts ih =>
    intro c hc
    rw [mkChallenges] at hc
    rcases List.mem_cons.mp hc with hc | hc
    · exact ⟨t, List.mem_cons_self t ts, by subst hc; simp⟩
    · obtain ⟨u, hu, hfields⟩ := ih (i + 1) c hc
      exact ⟨u, List.mem_cons_of_mem t hu, hfields⟩

/-- C9: whenever the stored challenge state is absent or its `lastRefresh` is
at least 24 hours old, reading the challenge state yields exactly 3
challenges, each with `progress = 0` and `completed = false`, drawn pairwise
distinct from the fixed template pool, with `lastRefresh` set to the read
time.  The random shuffle of the pool is abstracted as any permutation
`shuffled` of `CHALLENGE_TEMPLATES`. -/
theorem C9_challenge_refresh (stored : Option DailyChallengeState)
    (shuffled : List ChallengeTemplate) (now : ℤ)
    (hperm : shuffled.Perm CHALLENGE_TEMPLATES)
    (hstale : ∀ st, stored = some st → CHALLENGE_DURATION ≤ now - st.lastRefresh) :
    (loadChallengeState stored shuffled now).challenges.length = 3 ∧
    (∀ c ∈ (loadChallengeState stored shuffled now).challenges,
       c.progress = 0 ∧ c.completed = false) ∧
    ((loadChallengeState stored shuffled now).challenges.map Challenge.name).Nodup ∧
    (∀ c ∈ (loadChallengeState stored shuffled now).challenges,
       ∃ t ∈ CHALLENGE_TEMPLATES, c.type = t.type ∧ c.name = t.name ∧
         c.target = t.target ∧ c.reward = t.reward) ∧
    (loadChallengeState stored shuffled now).lastRefresh = now := by
  have hload : loadChallengeState stored shuffled now = initChallengeState shuffled now := by
    cases stored with
    | none => rfl
    | some st =>
      have := hstale st rfl
      simp [loadChallengeState, needsRefresh, this]
  rw [hload]
  have hlen9 : shuffled.length = 9 := by
    rw [hperm.length_eq]; rfl
  refine ⟨?_, ?_, ?_, ?_, rfl⟩
  · simp [initChallengeState, generateDailyChallenges, mkChallenges_length,
      List.length_take, hlen9]
  · intro c hc
    exact mkChallenges_fresh now 0 _ c hc
  · have hpool : (CHALLENGE_TEMPLATES.map ChallengeTemplate.name).Nodup := by decide
    have hshuf : (shuffled.map ChallengeTemplate.name).Nodup :=
      ((hperm.map ChallengeTemplate.name).nodup_iff).mpr hpool
    have : (initChallengeState shuffled now).challenges.map Challenge.name =
        (shuffled.map ChallengeTemplate.name).take 3 := by
      simp [initChallengeState, generateDailyChallenges, mkChallenges_map_name,
        List.map_take]
    rw [this]
    exact hshuf.sublist (List.take_sublist 3 _)
  · intro c hc
    obtain ⟨t, ht, h1, h2, _h3, h4, h5⟩ :=
      mkChallenges_mem now 0 (shuffled.take 3) c hc
    have htpool : t ∈ CHALLENGE_TEMPLATES :=
      hperm.subset (List.take_subset 3 shuffled ht)
    exact ⟨t, htpool, h1, h2, h4, h5⟩

theorem C9_challenge_refresh_witness :
    (loadChallengeState none CHALLENGE_TEMPLATES 0).challenges.length = 3 ∧
    (loadChallengeState none CHALLENGE_TEMPLATES 0).lastRefresh = 0 := by
  have h := C9_challenge_refresh none CHALLENGE_TEMPLATES 0 (List.Perm.refl _)
    (by intro st hst; cases hst)
  exact ⟨h.1, h.2.2.2.2⟩

/-- C4 counterexample: the claim "start() rejects with an explicit,
observable error whenever any precondition fails — in particular while a
session is already Mining" is false: with a connected identity, loaded
equipment and `isMining = true`, `startMining` hits the bare
`if (isMining) return;` and produces no error at all.  (It is also false
with `isReadyToClaim = true`: the status is never consulted and mining
simply restarts.) -/
theorem C4_counterexample :
    ¬ (∀ (connected : Bool) (cart : Option Cartridge) (mining ready : Bool)
        (dR rD bR : ℚ),
        (connected = false ∨ cart = none ∨ mining = true ∨ ready = true) →
        isExplicitError (startMining connected cart mining ready dR rD bR) = true) := by
  intro hall
  have h := hall true (some { name := "ICE", tokenId := 1 }) true false 0 0 0
    (Or.inr (Or.inr (Or.inl rfl)))
  simp [startMining, isExplicitError] at h

/-- C4 (amended): `startMining` produces an explicit, observable error when
the identity is not connected or no equipment is loaded; invoked while
already Mining it is rejected as a *silent* no-op (not queued, but with no
observable error); and the ReadyToClaim status is never consulted — with a
connected identity and loaded equipment, `startMining` proceeds to start a
fresh session even while `isReadyToClaim` holds. -/
theorem C4_start_preconditions (connected : Bool) (cart : Option Cartridge)
    (mining ready : Bool) (dR rD bR : ℚ) :
    (connected = false →
      startMining connected cart mining ready dR rD bR = .errorNoWallet ∧
      isExplicitError .errorNoWallet = true) ∧
    (connected = true → cart = none →
      startMining connected cart mining ready dR rD bR = .errorNoCartridge ∧
      isExplicitError .errorNoCartridge = true) ∧
    (connected = true → cart ≠ none → mining = true →
      startMining connected cart mining ready dR rD bR = .silentIgnore ∧
      isExplicitError .silentIgnore = false) ∧
    (connected = true → cart ≠ none → mining = false →
      ∃ d rar fr,
        startMining connected cart mining ready dR rD bR = .started d rar fr) := by
  refine ⟨?_, ?_, ?_, ?_⟩
  · intro hc
    subst hc
    exact ⟨rfl, rfl⟩
  · intro hc hcart
    subst hc
    exact ⟨by simp [startMining, hcart], rfl⟩
  · intro hc hcart hm
    subst hc; subst hm
    exact ⟨by simp [startMining, hcart], rfl⟩
  · intro hc hcart hm
    subst hc; subst hm
    obtain ⟨c, rfl⟩ := Option.ne_none_iff_exists'.mp hcart
    exact ⟨_, _, _, rfl⟩

theorem C4_start_preconditions_witness :
    startMining true (some { name := "ICE", tokenId := 1 }) true false 0 0 0 =
      StartOutcome.silentIgnore ∧
    isExplicitError StartOutcome.silentIgnore = false :=
  (C4_start_preconditions true (some { name := "ICE", tokenId := 1 })
    true false 0 0 0).2.2.1 rfl (by simp) rfl

lemma claimReward_not_ready (s : MiningModelState) (env : ChainEnv) (now : ℤ)
    (h : s.isReadyToClaim = false) :
    claimReward s env now = (s, .noop, []) := by
  simp [claimReward, h]

/-- Inversion for a settled claim attempt: the post-state is exactly the
stats-credited, pending-cleared, idle state, and the settled amount is the
pending reward. -/
lemma claimReward_settled_inv (s : MiningModelState) (env : ChainEnv) (now : ℤ)
    (r : ℚ) (h : (claimReward s env now).2.1 = ClaimOutcome.settled r) :
    (claimReward s env now).1 =
      { isMining := s.isMining
        isReadyToClaim := false
        isClaiming := false
        pendingReward := 0
        pendingRarity := none
        miningProgress := 0
        stats := { minecart := s.stats.minecart + s.pendingReward
                   multiplier := min (s.stats.multiplier + 1/10) 3
                   seasonPoints := s.stats.seasonPoints + s.pendingReward * 10
                   hashRate := s.stats.hashRate }
        storedStats := some { minecart := s.stats.minecart + s.pendingReward
                              seasonPoints := s.stats.seasonPoints + s.pendingReward * 10
                              multiplier := min (s.stats.multiplier + 1/10) 3
                              lastUpdated := now }
        storedPending := none } ∧ r = s.pendingReward := by
  simp only [claimReward] at h ⊢
  repeat' split at h
  all_goals try simp_all
  all_goals (split <;> first | (exfalso; omega) | simp_all)

/-- C1: after a claim attempt reaches confirmed settlement, the
PendingRewardRecord is absent from durable storage, the session is no
longer ReadyToClaim, and every subsequent `claimReward` on the resulting
state is a no-op: state unchanged (nothing credited), no chain calls. -/
theorem C1_settle_no_double_credit (s : MiningModelState) (env : ChainEnv)
    (now : ℤ) (r : ℚ)
    (h : (claimReward s env now).2.1 = ClaimOutcome.settled r) :
    (claimReward s env now).1.storedPending = none ∧
    (claimReward s env now).1.isReadyToClaim = false ∧
    (∀ (env' : ChainEnv) (now' : ℤ),
      claimReward (claimReward s env now).1 env' now' =
        ((claimReward s env now).1, ClaimOutcome.noop, [])) := by
  obtain ⟨h1, -⟩ := claimReward_settled_inv s env now r h
  refine ⟨by rw [h1], by rw [h1], fun env' now' => ?_⟩
  apply claimReward_not_ready
  rw [h1]

theorem C1_settle_no_double_credit_witness :
    (claimReward sampleReadyState sampleEnvOk 0).1.storedPending = none ∧
    (claimReward sampleReadyState sampleEnvOk 0).1.isReadyToClaim = false ∧
    (∀ (env' : ChainEnv) (now' : ℤ),
      claimReward (claimReward sampleReadyState sampleEnvOk 0).1 env' now' =
        ((claimReward sampleReadyState sampleEnvOk 0).1, ClaimOutcome.noop, [])) :=
  C1_settle_no_double_credit sampleReadyState sampleEnvOk 0 30 rfl

/-- C10: on every confirmed settlement the stats mutation is exactly:
minecart balance increases by the pending final reward, season points
increase by 10 × the final reward, the multiplier becomes
`min(previous + 0.1, 3.0)` — hence is ≤ 3.0 after every settlement. -/
theorem C10_settle_stats_mutation (s : MiningModelState) (env : ChainEnv)
    (now : ℤ) (r : ℚ)
    (h : (claimReward s env now).2.1 = ClaimOutcome.settled r) :
    (claimReward s env now).1.stats.minecart = s.stats.minecart + s.pendingReward ∧
    (claimReward s env now).1.stats.seasonPoints =
      s.stats.seasonPoints + s.pendingReward * 10 ∧
    (claimReward s env now).1.stats.multiplier = min (s.stats.multiplier + 1/10) 3 ∧
    (claimReward s env now).1.stats.multiplier ≤ 3 ∧
    r = s.pendingReward := by
  obtain ⟨h1, h2⟩ := claimReward_settled_inv s env now r h
  rw [h1]
  exact ⟨rfl, rfl, rfl, min_le_right _ _, h2⟩

theorem C10_settle_stats_mutation_witness :
    (claimReward sampleReadyState sampleEnvOk 0).1.stats.minecart = 5 + 30 ∧
    (claimReward sampleReadyState sampleEnvOk 0).1.stats.multiplier ≤ 3 := by
  have h := C10_settle_stats_mutation sampleReadyState sampleEnvOk 0 30 rfl
  exact ⟨h.1, h.2.2.2.1⟩

/-- C3: a claim attempt with a mismatched (normalized) network identifier
performs at most one network-switch attempt and never submits a
transaction, regardless of the switch outcome; the attempt never settles
and leaves stats, pending record and the ReadyToClaim status untouched. -/
theorem C3_network_mismatch_no_submit (s : MiningModelState) (env : ChainEnv)
    (now : ℤ)
    (h : normalizeChainId env.chainId ≠ normalizeChainId APECHAIN_CHAIN_ID) :
    ChainCall.sendTransactionCall ∉ (claimReward s env now).2.2 ∧
    (claimReward s env now).2.2.count ChainCall.switchChainCall ≤ 1 ∧
    (∀ r, (claimReward s env now).2.1 ≠ ClaimOutcome.settled r) ∧
    (claimReward s env now).1.stats = s.stats ∧
    (claimReward s env now).1.storedPending = s.storedPending ∧
    (claimReward s env now).1.isReadyToClaim = s.isReadyToClaim := by
  by_cases hg : (!s.isReadyToClaim || s.isClaiming) = true
  · simp [claimReward, hg]
  · cases hsw : env.switchSucceeds <;>
      simp [claimReward, hg, h, hsw, List.count_cons]

theorem C3_network_mismatch_no_submit_witness :
    ChainCall.sendTransactionCall ∉
      (claimReward sampleReadyState sampleEnvWrongChain 0).2.2 ∧
    (claimReward sampleReadyState sampleEnvWrongChain 0).2.2.count
      ChainCall.switchChainCall ≤ 1 ∧
    (∀ r, (claimReward sampleReadyState sampleEnvWrongChain 0).2.1 ≠
      ClaimOutcome.settled r) ∧
    (claimReward sampleReadyState sampleEnvWrongChain 0).1.stats =
      sampleReadyState.stats ∧
    (claimReward sampleReadyState sampleEnvWrongChain 0).1.storedPending =
      sampleReadyState.storedPending ∧
    (claimReward sampleReadyState sampleEnvWrongChain 0).1.isReadyToClaim =
      sampleReadyState.isReadyToClaim :=
  C3_network_mismatch_no_submit sampleReadyState sampleEnvWrongChain 0 (by decide)

lemma pollReceipt_all_none (receiptAt : ℕ → Option TxReceipt) :
    ∀ (fuel a : ℕ), (∀ i, a ≤ i → i < a + fuel → receiptAt i = none) →
      pollReceipt receiptAt a fuel = (none, fuel)
  | 0, _, _ => rfl
  | fuel + 1, a, h => by
    have h0 : receiptAt a = none := h a le_rfl (by omega)
    have ih := pollReceipt_all_none receiptAt fuel (a + 1)
      (fun i h1 h2 => h i (by omega) (by omega))
    simp [pollReceipt, h0, ih]

/-- C2: when every one of the 60 bounded confirmation polls yields no
receipt, the claim attempt fails with the transaction-timeout error, the
PendingRewardRecord in durable storage is untouched, the stats are
unchanged, the session remains ReadyToClaim with its pending reward, and
exactly 60 receipt polls were performed. -/
theorem C2_confirmation_timeout (s : MiningModelState) (env : ChainEnv)
    (now : ℤ) (addr gasEst gasPrice txHash : String) (bal : ℤ)
    (hready : s.isReadyToClaim = true) (hnc : s.isClaiming = false)
    (hchain : normalizeChainId env.chainId = normalizeChainId APECHAIN_CHAIN_ID)
    (heth : env.hasEthereum = true)
    (hacc : env.accountsResult = Except.ok addr)
    (hbal : env.balanceResult = Except.ok bal)
    (hb : CLAIM_FEE_WEI + GAS_BUFFER_WEI ≤ bal)
    (hgas : env.gasEstimateResult = Except.ok gasEst)
    (hprice : env.gasPriceResult = Except.ok gasPrice)
    (hsend : env.sendResult = Except.ok txHash)
    (hpoll : ∀ i, i < MAX_POLL_ATTEMPTS → env.receiptAt i = none) :
    (claimReward s env now).2.1 =
      ClaimOutcome.failed "Transaction timeout - check your wallet for status" ∧
    (claimReward s env now).1.storedPending = s.storedPending ∧
    (claimReward s env now).1.stats = s.stats ∧
    (claimReward s env now).1.isReadyToClaim = true ∧
    (claimReward s env now).1.pendingReward = s.pendingReward ∧
    (claimReward s env now).2.2.count ChainCall.getReceiptCall = MAX_POLL_ATTEMPTS ∧
    MAX_POLL_ATTEMPTS = 60 := by
  have hp : pollReceipt env.receiptAt 0 MAX_POLL_ATTEMPTS = (none, MAX_POLL_ATTEMPTS) :=
    pollReceipt_all_none env.receiptAt MAX_POLL_ATTEMPTS 0
      (fun i h1 h2 => hpoll i (by omega))
  have hnlt : ¬ bal < CLAIM_FEE_WEI + GAS_BUFFER_WEI := not_lt.mpr hb
  simp [claimReward, hready, hnc, hchain, heth, hacc, hbal, hnlt, hgas, hprice,
    hsend, hp, List.count_cons, List.count_replicate]
  rfl

theorem C2_confirmation_timeout_witness :
    (claimReward sampleReadyState sampleEnvTimeout 0).2.1 =
      ClaimOutcome.failed "Transaction timeout - check your wallet for status" ∧
    (claimReward sampleReadyState sampleEnvTimeout 0).1.storedPending =
      some { amount := 30, timestamp := 0 } ∧
    (claimReward sampleReadyState sampleEnvTimeout 0).1.isReadyToClaim = true := by
  have h := C2_confirmation_timeout sampleReadyState sampleEnvTimeout 0
    "0xabc" "0x5208" "0x1" "0xhash" 100000000000000000
    rfl rfl rfl rfl rfl rfl (by decide) rfl rfl rfl (fun i _ => rfl)
  exact ⟨h.1, h.2.1, h.2.2.2.1⟩

end Cyber
